import Mathlib

/-!
Verification of the standard command-buffer recording layer of `vulkano`
(`src/vulkano/src/command_buffer/standard/{mod,primary,update_buffer}.rs`).

The embedding translates the three source files into pure Lean definitions:

* `StdPrimaryCommandBufferBuilder` (primary.rs) — owns the raw stream
  (`UnsafeCommandBufferBuilder`) and the staging pipeline-barrier batch.
* `StdUpdateBufferBuilder` (update_buffer.rs) — the buffer-update decorator,
  generic over the inner builder, which is passed as a `BuilderOps` dictionary
  mirroring the `StdCommandBufferBuilder` trait of mod.rs.
* Types from modules outside the three source files (`sync::PipelineStages`,
  `sync::AccessFlagBits`, `image::sys::Layout`, `command_buffer::sys::*`) are
  modelled from the spec, as marked on each definition.

Closures handed to `add_command` act on the raw unsafe builder, whose interface
is append-only (`append(op)` / `append_barrier(batch)`); a closure is therefore
embedded as the list of raw commands it appends.
-/

/-- Modelled from the spec: Pipeline Stage Set — a bitset-like value over GPU
pipeline stages, combinable by union, with "none" as identity
(`sync::PipelineStages` is outside the three source files; a representative
subset of the stage flags is kept). -/
structure PipelineStages where
  top_of_pipe : Bool
  transfer : Bool
  compute_shader : Bool
  fragment_shader : Bool
  bottom_of_pipe : Bool
  deriving DecidableEq

/-- The empty pipeline-stage set (`PipelineStages::none()`). -/
def PipelineStages.none : PipelineStages :=
  ⟨false, false, false, false, false⟩

/-- Modelled from the spec: Access Mode Set — a bitset-like value over memory
access kinds (`sync::AccessFlagBits` is outside the three source files; a
representative subset of the access flags is kept). -/
structure AccessFlagBits where
  transfer_read : Bool
  transfer_write : Bool
  shader_read : Bool
  shader_write : Bool
  memory_read : Bool
  memory_write : Bool
  deriving DecidableEq

/-- The empty access set (`AccessFlagBits::none()`). -/
def AccessFlagBits.none : AccessFlagBits :=
  ⟨false, false, false, false, false, false⟩

/-- Modelled from the spec: Image Layout — the enumerated state an image
subresource can be in (`image::sys::Layout` is outside the three source
files). -/
inductive Layout where
  | Undefined
  | General
  | TransferSrcOptimal
  | TransferDstOptimal
  | ShaderReadOnlyOptimal
  | ColorAttachmentOptimal
  | PresentSrc
  deriving DecidableEq

/-- A buffer object, as seen through the interface this layer uses: an
identity and the capability query `usage_transfer_dest()` on its inner
buffer (resource objects are external collaborators). -/
structure BufferDesc where
  id : Nat
  usage_transfer_dest : Bool
  deriving DecidableEq

/-- `BufferSlice`: a byte sub-range of a buffer, exposing `buffer()`,
`offset()` and `size()`. -/
structure BufferSlice where
  buffer : BufferDesc
  offset : Nat
  size : Nat
  deriving DecidableEq

/-- A buffer memory barrier request, with the fields of the
`buffer_memory_barrier` trait method of mod.rs. -/
structure BufferBarrierRequest where
  buffer : BufferSlice
  src_stages : PipelineStages
  src_access : AccessFlagBits
  dest_stages : PipelineStages
  dest_access : AccessFlagBits
  by_region : Bool
  queue_transfer_from : Option Nat
  deriving DecidableEq

/-- A raw GPU operation appended to the unsafe stream: either the deferred
buffer-update operation of the update decorator, or an opaque caller-supplied
operation (closures handed to `add_command` are caller code; they are
identified by a tag). -/
inductive RawOp where
  | updateBuffer (bufferId : Nat) (dataSize : Nat)
  | user (tag : Nat)
  deriving DecidableEq

/-- One item of the raw stream: a batched pipeline barrier
(`RawBuilder.append_barrier`) or a concrete operation (`RawBuilder.append`). -/
inductive RawCommand where
  | pipelineBarrier (requests : List BufferBarrierRequest)
  | op (o : RawOp)
  deriving DecidableEq

/-- Modelled from the spec: Barrier Batch — an ordered collection of
not-yet-emitted barrier requests (`command_buffer::sys::PipelineBarrierBuilder`
is outside the three source files). -/
structure PipelineBarrierBuilder where
  requests : List BufferBarrierRequest
  deriving DecidableEq

/-- `PipelineBarrierBuilder::new()`: the empty batch. -/
def PipelineBarrierBuilder.new : PipelineBarrierBuilder := ⟨[]⟩

/-- `PipelineBarrierBuilder::is_empty()`. -/
def PipelineBarrierBuilder.is_empty (b : PipelineBarrierBuilder) : Bool :=
  b.requests.isEmpty

/-- `PipelineBarrierBuilder::add_buffer_memory_barrier`: records one more
request in the batch. -/
def PipelineBarrierBuilder.add_buffer_memory_barrier
    (b : PipelineBarrierBuilder) (r : BufferBarrierRequest) :
    PipelineBarrierBuilder :=
  ⟨b.requests ++ [r]⟩

/-- Modelled from the spec: the raw, append-only unsafe stream builder
(`command_buffer::sys::UnsafeCommandBufferBuilder` is outside the three source
files; interface per spec §6: `append(op)`, `append_barrier(batch)`,
`finalize()`). -/
structure UnsafeCommandBufferBuilder where
  stream : List RawCommand
  deriving DecidableEq

/-- `RawBuilder.append_barrier` / `UnsafeCommandBufferBuilder::pipeline_barrier`:
encodes the batched barrier into the stream. -/
def UnsafeCommandBufferBuilder.pipeline_barrier
    (u : UnsafeCommandBufferBuilder) (b : PipelineBarrierBuilder) :
    UnsafeCommandBufferBuilder :=
  ⟨u.stream ++ [RawCommand.pipelineBarrier b.requests]⟩

/-- The finalized raw command buffer (`UnsafeCommandBuffer`). -/
structure UnsafeCommandBuffer where
  stream : List RawCommand
  deriving DecidableEq

/-- Modelled from the spec: `RawBuilder.finalize()` — finalizes the stream
content as recorded. -/
def UnsafeCommandBufferBuilder.build (u : UnsafeCommandBufferBuilder) :
    UnsafeCommandBuffer :=
  ⟨u.stream⟩

/-- `StdPrimaryCommandBufferBuilder` (primary.rs): owns the raw stream and the
staging barrier batch. The `buffer_states` / `image_state` tables are the
Resource State Table, modelled from the spec because the trait methods that
maintain it (`transition_buffer_state`, `current_image_layout`) are declared in
mod.rs but have no implementation for the primary builder in the source
files. -/
structure StdPrimaryCommandBufferBuilder where
  inner : UnsafeCommandBufferBuilder
  staging_barrier : PipelineBarrierBuilder
  buffer_states : List ((Nat × Nat × Nat) × (PipelineStages × AccessFlagBits))
  image_state : List ((Nat × (Nat × Nat) × (Nat × Nat)) × Layout)
  deriving DecidableEq

/-- `StdPrimaryCommandBufferBuilder::new`: opens a fresh raw stream. The pool
collaborator and the fallible open step live outside the three source files;
the fresh builder starts with an empty stream, an empty staging barrier and an
empty state table. -/
def StdPrimaryCommandBufferBuilder.new : StdPrimaryCommandBufferBuilder :=
  { inner := ⟨[]⟩,
    staging_barrier := PipelineBarrierBuilder.new,
    buffer_states := [],
    image_state := [] }

/-- `StdPrimaryCommandBufferBuilder::add_command`: if the staging barrier is
non-empty, emit it to the raw stream and replace it with a fresh one
(`mem::replace`), then run the caller's closure on the raw builder (embedded
as appending the commands the closure appends). -/
def StdPrimaryCommandBufferBuilder.add_command
    (s : StdPrimaryCommandBufferBuilder) (cmds : List RawCommand) :
    StdPrimaryCommandBufferBuilder :=
  let s :=
    if s.staging_barrier.is_empty then s
    else { s with inner := s.inner.pipeline_barrier s.staging_barrier,
                  staging_barrier := PipelineBarrierBuilder.new }
  { s with inner := ⟨s.inner.stream ++ cmds⟩ }

/-- `StdPrimaryCommandBufferBuilder::buffer_memory_barrier`: records the
request in the staging barrier batch. -/
def StdPrimaryCommandBufferBuilder.buffer_memory_barrier
    (s : StdPrimaryCommandBufferBuilder) (buffer : BufferSlice)
    (src_stages : PipelineStages) (src_access : AccessFlagBits)
    (dest_stages : PipelineStages) (dest_access : AccessFlagBits)
    (by_region : Bool) (queue_transfer_from : Option Nat) :
    StdPrimaryCommandBufferBuilder :=
  let r : BufferBarrierRequest :=
    { buffer := buffer,
      src_stages := src_stages,
      src_access := src_access,
      dest_stages := dest_stages,
      dest_access := dest_access,
      by_region := by_region,
      queue_transfer_from := queue_transfer_from }
  { s with staging_barrier := s.staging_barrier.add_buffer_memory_barrier r }

/-- Modelled from the spec: the Resource State Table lookup used by
`transition_buffer_state` (declared in mod.rs but not implemented for the
primary builder in the source files). Per spec §4.1 the resource's last
recorded state is looked up, defaulting to top-of-pipe / no access when the
resource was never touched. -/
def StdPrimaryCommandBufferBuilder.lookup_buffer_state
    (s : StdPrimaryCommandBufferBuilder) (key : Nat × Nat × Nat) :
    PipelineStages × AccessFlagBits :=
  match s.buffer_states.find? (fun e => decide (e.1 = key)) with
  | some e => e.2
  | none => ({ PipelineStages.none with top_of_pipe := true },
             AccessFlagBits.none)

/-- Modelled from the spec: `transition_buffer_state` for the primary builder —
declared in mod.rs but not implemented in the source files. Per spec §4.1 it
synthesizes a barrier request from (current state → requested state), applies
it through `buffer_memory_barrier`, and updates the Resource State Table to
the new state. -/
def StdPrimaryCommandBufferBuilder.transition_buffer_state
    (s : StdPrimaryCommandBufferBuilder) (buffer : BufferSlice)
    (dest_stage : PipelineStages) (dest_access : AccessFlagBits)
    (by_region : Bool) : StdPrimaryCommandBufferBuilder :=
  let key := (buffer.buffer.id, buffer.offset, buffer.size)
  let prev := s.lookup_buffer_state key
  let s := s.buffer_memory_barrier buffer prev.1 prev.2 dest_stage dest_access
      by_region none
  { s with buffer_states := (key, (dest_stage, dest_access)) :: s.buffer_states }

/-- Modelled from the spec: `current_image_layout` for the primary builder —
declared in mod.rs but not implemented in the source files. Per spec §4.1 it
returns the last known layout for the subresource range if the table has an
unambiguous answer, and "unknown" (`none`) for an untouched range. -/
def StdPrimaryCommandBufferBuilder.current_image_layout
    (s : StdPrimaryCommandBufferBuilder) (image : Nat)
    (mipmaps : Nat × Nat) (layers : Nat × Nat) : Option Layout :=
  match s.image_state.find? (fun e => decide (e.1 = (image, mipmaps, layers))) with
  | some e => some e.2
  | none => none

/-- `StdPrimaryCommandBuffer` (primary.rs): the built primary buffer, wrapping
the finalized raw stream. -/
structure StdPrimaryCommandBuffer where
  inner : UnsafeCommandBuffer
  deriving DecidableEq

/-- `StdPrimaryCommandBufferBuilder::build`: finalizes the raw stream as the
source does — note the source performs no flush of the staging barrier here
(only a `TODO: final image transitions` comment). -/
def StdPrimaryCommandBufferBuilder.build
    (s : StdPrimaryCommandBufferBuilder) : StdPrimaryCommandBuffer :=
  { inner := s.inner.build }

/-- Modelled from the spec: `build_required_transitions` for the built primary
buffer (`StdCommandBuffer for StdPrimaryCommandBuffer` is an empty prototype
impl in primary.rs). The primary builder records no deferred transitions in
the source files, so no further transitions are required and the query returns
the none value, per spec §4.3. The transition descriptor is a self-contained
raw command sequence. -/
def StdPrimaryCommandBuffer.build_required_transitions
    (_ : StdPrimaryCommandBuffer) : Option (List RawCommand) :=
  none

/-- The `StdCommandBufferBuilder` trait of mod.rs, as a dictionary of the
operations a concrete builder provides (the decorator of update_buffer.rs is
generic over `T: StdCommandBufferBuilder`; here it is generic over this
dictionary). `τ` is the builder type and `γ` its `BuildOutput`. -/
structure BuilderOps (τ : Type) (γ : Type) where
  add_command : τ → List RawCommand → τ
  buffer_memory_barrier : τ → BufferSlice → PipelineStages → AccessFlagBits →
    PipelineStages → AccessFlagBits → Bool → Option Nat → τ
  transition_buffer_state : τ → BufferSlice → PipelineStages → AccessFlagBits →
    Bool → τ
  current_image_layout : τ → Nat → Nat × Nat → Nat × Nat → Option Layout
  build : τ → γ

/-- The dictionary packaging the primary builder's trait implementation
(primary.rs, plus the spec-modelled transition/layout methods). -/
def primaryOps :
    BuilderOps StdPrimaryCommandBufferBuilder StdPrimaryCommandBuffer :=
  { add_command := StdPrimaryCommandBufferBuilder.add_command,
    buffer_memory_barrier := StdPrimaryCommandBufferBuilder.buffer_memory_barrier,
    transition_buffer_state := StdPrimaryCommandBufferBuilder.transition_buffer_state,
    current_image_layout := StdPrimaryCommandBufferBuilder.current_image_layout,
    build := StdPrimaryCommandBufferBuilder.build }

/-- The union stage set `PipelineStages { transfer: true, ..none() }` used by
the update decorator's construction. -/
def transferStages : PipelineStages :=
  { PipelineStages.none with transfer := true }

/-- The union access set `AccessFlagBits { transfer_write: true, ..none() }`
used by the update decorator's construction. -/
def transferWriteAccess : AccessFlagBits :=
  { AccessFlagBits.none with transfer_write := true }

/-- `StdUpdateBufferBuilder` (update_buffer.rs): wrapper around an inner
builder that adds one deferred buffer-update operation. The `data: &'a D`
payload is observed through `mem::size_of_val(data)` only, so it is embedded
by its byte size; `buffer: Arc<B>` is the strong ownership reference to the
destination buffer. -/
structure StdUpdateBufferBuilder (τ : Type) where
  inner : τ
  dataSize : Nat
  buffer : BufferDesc
  flushed : Bool

/-- The error cases of the precondition assertions in
`StdUpdateBufferBuilder::new` (the source aborts via `assert!`; spec §7 calls
for surfacing them as recoverable precondition-violation errors, so the
embedding returns them as values). -/
inductive UpdateBufferError where
  | offsetNotAligned
  | sizeNotAligned
  | dataTooLarge
  | missingTransferDestUsage
  deriving DecidableEq

/-- `StdUpdateBufferBuilder::new`: asserts the preconditions in source order
(offset alignment, size alignment, payload at most 65536 bytes, destination
usable as transfer destination); only once they hold, requests the transition
to (transfer, transfer-write, by-region) on the inner builder and stores the
strong buffer reference with `flushed = false`. -/
def StdUpdateBufferBuilder.new {τ γ : Type} (o : BuilderOps τ γ) (inner : τ)
    (buffer : BufferSlice) (dataSize : Nat) :
    Except UpdateBufferError (StdUpdateBufferBuilder τ) :=
  if buffer.offset % 4 = 0 then
    if buffer.size % 4 = 0 then
      if dataSize ≤ 65536 then
        if buffer.buffer.usage_transfer_dest = true then
          let inner := o.transition_buffer_state inner buffer transferStages
            transferWriteAccess true
          Except.ok
            { inner := inner,
              dataSize := dataSize,
              buffer := buffer.buffer,
              flushed := false }
        else Except.error UpdateBufferError.missingTransferDestUsage
      else Except.error UpdateBufferError.dataTooLarge
    else Except.error UpdateBufferError.sizeNotAligned
  else Except.error UpdateBufferError.offsetNotAligned

/-- The deferred raw update operation of a decorator instance. Modelled from
the spec: the closure body is left `unimplemented!()` in update_buffer.rs; per
spec it appends the decorator's one buffer-update operation. -/
def StdUpdateBufferBuilder.updateOp {τ : Type}
    (s : StdUpdateBufferBuilder τ) : RawCommand :=
  RawCommand.op (RawOp.updateBuffer s.buffer.id s.dataSize)

/-- `StdUpdateBufferBuilder::flush`: if not yet flushed, mark flushed and
append the deferred update operation to the inner builder through its
`add_command`. -/
def StdUpdateBufferBuilder.flush {τ γ : Type} (o : BuilderOps τ γ)
    (s : StdUpdateBufferBuilder τ) : StdUpdateBufferBuilder τ :=
  if s.flushed then s
  else { s with flushed := true,
                inner := o.add_command s.inner [s.updateOp] }

/-- `StdUpdateBufferBuilder::add_command`: flush, then forward the closure to
the inner builder. -/
def StdUpdateBufferBuilder.add_command {τ γ : Type} (o : BuilderOps τ γ)
    (s : StdUpdateBufferBuilder τ) (cmds : List RawCommand) :
    StdUpdateBufferBuilder τ :=
  let s := s.flush o
  { s with inner := o.add_command s.inner cmds }

/-- `StdUpdateBufferBuilder::buffer_memory_barrier`: flush, then forward the
barrier request to the inner builder. -/
def StdUpdateBufferBuilder.buffer_memory_barrier {τ γ : Type}
    (o : BuilderOps τ γ) (s : StdUpdateBufferBuilder τ) (buffer : BufferSlice)
    (src_stages : PipelineStages) (src_access : AccessFlagBits)
    (dest_stages : PipelineStages) (dest_access : AccessFlagBits)
    (by_region : Bool) (queue_transfer_from : Option Nat) :
    StdUpdateBufferBuilder τ :=
  let s := s.flush o
  let inner := o.buffer_memory_barrier s.inner buffer src_stages src_access
    dest_stages dest_access by_region queue_transfer_from
  { s with inner := inner }

/-- `StdUpdateBufferBuilder::current_image_layout`: pure pass-through query to
the inner builder (takes the builder immutably; no state is produced). -/
def StdUpdateBufferBuilder.current_image_layout {τ γ : Type}
    (o : BuilderOps τ γ) (s : StdUpdateBufferBuilder τ) (image : Nat)
    (mipmaps : Nat × Nat) (layers : Nat × Nat) : Option Layout :=
  o.current_image_layout s.inner image mipmaps layers

/-- Modelled from the spec: `transition_buffer_state` for the decorator — the
trait method has no implementation in update_buffer.rs; per spec §2/§4.1 the
decorator transparently forwards transition requests without flushing, so that
they participate in batch merging. -/
def StdUpdateBufferBuilder.transition_buffer_state {τ γ : Type}
    (o : BuilderOps τ γ) (s : StdUpdateBufferBuilder τ) (buffer : BufferSlice)
    (dest_stage : PipelineStages) (dest_access : AccessFlagBits)
    (by_region : Bool) : StdUpdateBufferBuilder τ :=
  let inner := o.transition_buffer_state s.inner buffer dest_stage dest_access
    by_region
  { s with inner := inner }

/-- `StdUpdateBuffer` (update_buffer.rs): the built wrapper, carrying the
inner build output and the strong buffer reference. -/
structure StdUpdateBuffer (γ : Type) where
  inner : γ
  buffer : BufferDesc

/-- `StdUpdateBufferBuilder::build`: flush, then build the inner builder and
carry the strong buffer reference into the output. -/
def StdUpdateBufferBuilder.build {τ γ : Type} (o : BuilderOps τ γ)
    (s : StdUpdateBufferBuilder τ) : StdUpdateBuffer γ :=
  let s := s.flush o
  { inner := o.build s.inner, buffer := s.buffer }

/-- Modelled from the spec: `build_required_transitions` for the built update
wrapper (`StdCommandBuffer for StdUpdateBuffer` is an empty prototype impl in
update_buffer.rs). The wrapper adds no deferred transitions of its own, so it
forwards the inner built buffer's answer. -/
def StdUpdateBuffer.build_required_transitions {γ : Type}
    (f : γ → Option (List RawCommand)) (s : StdUpdateBuffer γ) :
    Option (List RawCommand) :=
  f s.inner

/-- The dictionary packaging the decorator's trait implementation over an
inner builder dictionary. -/
def updateOps {τ γ : Type} (o : BuilderOps τ γ) :
    BuilderOps (StdUpdateBufferBuilder τ) (StdUpdateBuffer γ) :=
  { add_command := StdUpdateBufferBuilder.add_command o,
    buffer_memory_barrier := StdUpdateBufferBuilder.buffer_memory_barrier o,
    transition_buffer_state := StdUpdateBufferBuilder.transition_buffer_state o,
    current_image_layout := StdUpdateBufferBuilder.current_image_layout o,
    build := StdUpdateBufferBuilder.build o }

/-- The update decorator instantiated over the primary builder. -/
abbrev UpdP := StdUpdateBufferBuilder StdPrimaryCommandBufferBuilder

/-- A caller-side contract call made on a builder after construction: an
`add_command` closure (caller operations are opaque, identified by tags) or a
`buffer_memory_barrier` request. -/
inductive DecoratorCall where
  | addCommand (tags : List Nat)
  | bufferBarrier (buffer : BufferSlice) (src_stages : PipelineStages)
      (src_access : AccessFlagBits) (dest_stages : PipelineStages)
      (dest_access : AccessFlagBits) (by_region : Bool)
      (queue_transfer_from : Option Nat)
  deriving DecidableEq

/-- The raw commands appended by a caller-supplied `add_command` closure. -/
def userCmds (tags : List Nat) : List RawCommand :=
  tags.map (fun t => RawCommand.op (RawOp.user t))

/-- One contract call applied to the decorator-over-primary builder. -/
def stepCall (s : UpdP) : DecoratorCall → UpdP
  | DecoratorCall.addCommand tags =>
      s.add_command primaryOps (userCmds tags)
  | DecoratorCall.bufferBarrier b s1 a1 s2 a2 br q =>
      s.buffer_memory_barrier primaryOps b s1 a1 s2 a2 br q

/-- A sequence of contract calls applied to the decorator-over-primary
builder. -/
def runCalls (s : UpdP) (cs : List DecoratorCall) : UpdP :=
  cs.foldl stepCall s

/-- The raw stream content of the command buffer obtained by `build()` on the
decorator-over-primary builder. -/
def builtStream (s : UpdP) : List RawCommand :=
  ((s.build primaryOps).inner).inner.stream

/-- What a flush of the staging barrier batch emits to the raw stream: nothing
when the batch is empty, one batched pipeline barrier otherwise. -/
def flushEmit (b : PipelineBarrierBuilder) : List RawCommand :=
  if b.requests.isEmpty then [] else [RawCommand.pipelineBarrier b.requests]

/-- A list of raw commands containing no buffer-update operation at all. -/
def noUpdate (l : List RawCommand) : Prop :=
  ∀ b n, RawCommand.op (RawOp.updateBuffer b n) ∉ l

/-- The per-decorator state of one layer of a chain of update decorators over
a primary builder (`dataSize`, `buffer`, `flushed` of
`StdUpdateBufferBuilder`). -/
structure UpdLayer where
  dataSize : Nat
  buffer : BufferDesc
  flushed : Bool
  deriving DecidableEq

/-- A primary builder wrapped in a dynamic number of update decorators,
innermost layer first. -/
structure TowerBuilder where
  base : StdPrimaryCommandBufferBuilder
  layers : List UpdLayer
  deriving DecidableEq

/-- The deferred update operation of one decorator layer. -/
def UpdLayer.updateOp (l : UpdLayer) : RawCommand :=
  RawCommand.op (RawOp.updateBuffer l.buffer.id l.dataSize)

/-- Composite effect on the chain when a contract call propagates inward: per
`StdUpdateBufferBuilder::flush`, every not-yet-flushed layer appends its
deferred update operation through the inner chain's `add_command`, so the
operations reach the primary builder innermost layer first, and every layer's
`flushed` flag is set. -/
def TowerBuilder.flushAll (t : TowerBuilder) : TowerBuilder :=
  { base := t.layers.foldl
      (fun p l => if l.flushed then p else p.add_command [l.updateOp]) t.base,
    layers := t.layers.map (fun l => { l with flushed := true }) }

/-- `add_command` on the outermost builder of the chain: each layer flushes
then forwards, so the whole chain flushes and the closure's commands reach the
primary builder. -/
def TowerBuilder.add_command (t : TowerBuilder) (cmds : List RawCommand) :
    TowerBuilder :=
  let t := t.flushAll
  { t with base := t.base.add_command cmds }

/-- `buffer_memory_barrier` on the outermost builder of the chain: each layer
flushes then forwards the request to the primary builder. -/
def TowerBuilder.buffer_memory_barrier (t : TowerBuilder)
    (buffer : BufferSlice) (src_stages : PipelineStages)
    (src_access : AccessFlagBits) (dest_stages : PipelineStages)
    (dest_access : AccessFlagBits) (by_region : Bool)
    (queue_transfer_from : Option Nat) : TowerBuilder :=
  let t := t.flushAll
  let base := t.base.buffer_memory_barrier buffer src_stages src_access
    dest_stages dest_access by_region queue_transfer_from
  { t with base := base }

/-- `transition_buffer_state` on the outermost builder of the chain: layers
forward it transparently (no flush), so it reaches the primary builder. -/
def TowerBuilder.transition_buffer_state (t : TowerBuilder)
    (buffer : BufferSlice) (dest_stage : PipelineStages)
    (dest_access : AccessFlagBits) (by_region : Bool) : TowerBuilder :=
  let base := t.base.transition_buffer_state buffer dest_stage dest_access
    by_region
  { t with base := base }

/-- Wrapping the chain in one more update decorator
(`StdUpdateBufferBuilder::new` with the current chain as `inner`): run the
precondition assertions, then request the transition and push a new unflushed
layer (outermost last). -/
def TowerBuilder.wrapUpdate (t : TowerBuilder) (buffer : BufferSlice)
    (dataSize : Nat) : Except UpdateBufferError TowerBuilder :=
  if buffer.offset % 4 = 0 then
    if buffer.size % 4 = 0 then
      if dataSize ≤ 65536 then
        if buffer.buffer.usage_transfer_dest = true then
          let t := t.transition_buffer_state buffer transferStages
            transferWriteAccess true
          Except.ok { t with layers := t.layers ++
            [{ dataSize := dataSize, buffer := buffer.buffer, flushed := false }] }
        else Except.error UpdateBufferError.missingTransferDestUsage
      else Except.error UpdateBufferError.dataTooLarge
    else Except.error UpdateBufferError.sizeNotAligned
  else Except.error UpdateBufferError.offsetNotAligned

/-- The immutable result of `build()` on the chain: the finalized raw stream
plus the strong buffer references carried by the nested `StdUpdateBuffer`
wrappers. -/
structure BuiltTower where
  stream : List RawCommand
  buffers : List BufferDesc
  deriving DecidableEq

/-- `build()` on the outermost builder of the chain: each layer flushes then
builds its inner builder, and the primary builder finalizes the raw stream. -/
def TowerBuilder.build (t : TowerBuilder) : BuiltTower :=
  let t := t.flushAll
  { stream := t.base.build.inner.stream,
    buffers := t.layers.map (fun l => l.buffer) }

/-- One builder call of a recording session: a raw-operation closure, a
barrier request, or wrapping the builder in a buffer-update decorator. -/
inductive BuilderCall where
  | addCommand (tags : List Nat)
  | bufferBarrier (buffer : BufferSlice) (src_stages : PipelineStages)
      (src_access : AccessFlagBits) (dest_stages : PipelineStages)
      (dest_access : AccessFlagBits) (by_region : Bool)
      (queue_transfer_from : Option Nat)
  | wrapUpdate (buffer : BufferSlice) (dataSize : Nat)
  deriving DecidableEq

/-- One step of a recording session on the current builder chain. -/
def progStep (t : TowerBuilder) : BuilderCall → Except UpdateBufferError TowerBuilder
  | BuilderCall.addCommand tags => Except.ok (t.add_command (userCmds tags))
  | BuilderCall.bufferBarrier b s1 a1 s2 a2 br q =>
      Except.ok (t.buffer_memory_barrier b s1 a1 s2 a2 br q)
  | BuilderCall.wrapUpdate b n => t.wrapUpdate b n

/-- A whole recording session: start from a fresh primary builder, apply the
call sequence, then `build()`. The result is the built raw stream content (or
the precondition violation that interrupted the session). -/
def runProgram (cs : List BuilderCall) : Except UpdateBufferError BuiltTower := do
  let t ← cs.foldlM progStep
    { base := StdPrimaryCommandBufferBuilder.new, layers := [] }
  Except.ok t.build

/-- Applies one barrier request record through
`StdPrimaryCommandBufferBuilder::buffer_memory_barrier`. -/
def applyBarrierReq (p : StdPrimaryCommandBufferBuilder)
    (r : BufferBarrierRequest) : StdPrimaryCommandBufferBuilder :=
  p.buffer_memory_barrier r.buffer r.src_stages r.src_access r.dest_stages
    r.dest_access r.by_region r.queue_transfer_from

/-- A concrete 16-byte, 4-byte-aligned slice of a transfer-destination-capable
buffer (the spec's simple-update scenario). -/
def wSlice : BufferSlice :=
  { buffer := { id := 7, usage_transfer_dest := true }, offset := 0, size := 16 }

/-- A concrete barrier request on `wSlice`. -/
def wReq : BufferBarrierRequest :=
  { buffer := wSlice,
    src_stages := PipelineStages.none,
    src_access := AccessFlagBits.none,
    dest_stages := transferStages,
    dest_access := transferWriteAccess,
    by_region := true,
    queue_transfer_from := none }

/-- A fresh primary builder after a single `buffer_memory_barrier` request and
no further operation: its staging batch is pending and non-empty. -/
def c1Builder : StdPrimaryCommandBufferBuilder :=
  StdPrimaryCommandBufferBuilder.new.buffer_memory_barrier wSlice
    PipelineStages.none AccessFlagBits.none transferStages transferWriteAccess
    true none

/-- A concrete update decorator over a fresh primary builder, as produced by
construction: deferred operation not yet flushed. -/
def wUpd : UpdP :=
  { inner := StdPrimaryCommandBufferBuilder.new,
    dataSize := 16,
    buffer := wSlice.buffer,
    flushed := false }

/-- A concrete recording session: wrap a fresh primary builder in one update
decorator, add one caller operation, request one barrier, build. -/
def wProg : List BuilderCall :=
  [BuilderCall.wrapUpdate wSlice 16,
   BuilderCall.addCommand [1],
   BuilderCall.bufferBarrier wSlice transferStages transferWriteAccess
     transferStages transferWriteAccess true none]

/-- C1: claim — build() flushes any pending non-empty barrier batch into the
raw stream before finalizing. The code does not: on a primary builder holding
one pending barrier request and an empty raw stream, `build()` returns a
command buffer with an empty stream, dropping the pending batch, while an
intervening `add_command` would have emitted it. -/
theorem primary_build_drops_pending_barrier :
    c1Builder.staging_barrier.is_empty = false ∧
    c1Builder.build.inner.stream = [] ∧
    (c1Builder.add_command []).inner.stream
      = [RawCommand.pipelineBarrier c1Builder.staging_barrier.requests] := by
  refine ⟨rfl, rfl, rfl⟩

/-- C6: on the primary builder, `buffer_memory_barrier` merges the request
into the pending barrier batch only: the raw stream and the resource state
tables are unchanged, and the batch gains exactly the request. -/
theorem primary_barrier_request_only_batches
    (p : StdPrimaryCommandBufferBuilder) (buffer : BufferSlice)
    (src_stages : PipelineStages) (src_access : AccessFlagBits)
    (dest_stages : PipelineStages) (dest_access : AccessFlagBits)
    (by_region : Bool) (queue_transfer_from : Option Nat) :
    (p.buffer_memory_barrier buffer src_stages src_access dest_stages
        dest_access by_region queue_transfer_from).inner = p.inner ∧
    (p.buffer_memory_barrier buffer src_stages src_access dest_stages
        dest_access by_region queue_transfer_from).buffer_states
      = p.buffer_states ∧
    (p.buffer_memory_barrier buffer src_stages src_access dest_stages
        dest_access by_region queue_transfer_from).image_state
      = p.image_state ∧
    (p.buffer_memory_barrier buffer src_stages src_access dest_stages
        dest_access by_region queue_transfer_from).staging_barrier.requests
      = p.staging_barrier.requests ++
        [{ buffer := buffer, src_stages := src_stages, src_access := src_access,
           dest_stages := dest_stages, dest_access := dest_access,
           by_region := by_region, queue_transfer_from := queue_transfer_from }] := by
  refine ⟨rfl, rfl, rfl, rfl⟩

/-- C8: every built command buffer exposes the required-transitions query, and
for a built buffer requiring no further transitions — in particular any built
primary buffer, and the update wrapper over one — the query returns the none
value. -/
theorem built_buffer_reports_no_required_transitions :
    (∀ cb : StdPrimaryCommandBuffer, cb.build_required_transitions = none) ∧
    (∀ u : StdUpdateBuffer StdPrimaryCommandBuffer,
      u.build_required_transitions
        StdPrimaryCommandBuffer.build_required_transitions = none) :=
  ⟨fun _ => rfl, fun _ => rfl⟩

/-- C9: the built raw stream content is a deterministic function of the call
sequence — a recording session is a pure function of the list of builder
calls, with no other input, so equal call sequences yield equal outputs. -/
theorem built_stream_deterministic (cs1 cs2 : List BuilderCall)
    (h : cs1 = cs2) : runProgram cs1 = runProgram cs2 := by
  rw [h]

/-- Witness for C9 at the concrete session `wProg`. -/
theorem built_stream_deterministic_witness :
    runProgram wProg = runProgram wProg :=
  built_stream_deterministic wProg wProg rfl

/-- C10: `current_image_layout` on the update decorator is a pure pass-through
query: it returns the inner builder's answer, and its result is independent of
the decorator's own deferred-operation state (the call consumes no builder
state — it takes the builder immutably and returns only the layout). -/
theorem update_decorator_layout_query_pure {τ γ : Type} (o : BuilderOps τ γ)
    (d : StdUpdateBufferBuilder τ) (image : Nat) (mipmaps layers : Nat × Nat) :
    d.current_image_layout o image mipmaps layers
      = o.current_image_layout d.inner image mipmaps layers ∧
    ∀ fl n,
      StdUpdateBufferBuilder.current_image_layout o
          { d with flushed := fl, dataSize := n } image mipmaps layers
        = d.current_image_layout o image mipmaps layers :=
  ⟨rfl, fun _ _ => rfl⟩

/-- The decorator's flush never changes the stored strong buffer reference. -/
theorem update_flush_preserves_buffer {τ γ : Type} (o : BuilderOps τ γ)
    (s : StdUpdateBufferBuilder τ) : (s.flush o).buffer = s.buffer := by
  unfold StdUpdateBufferBuilder.flush
  split <;> rfl

/-- C7: the update decorator stores the strong (reference-counted) buffer
reference at construction and `build()` carries it into the built command
buffer, keeping the buffer alive for the built buffer's lifetime. -/
theorem update_buffer_reference_carried {τ γ : Type} (o : BuilderOps τ γ)
    (inner : τ) (slice : BufferSlice) (dataSize : Nat)
    (d : StdUpdateBufferBuilder τ)
    (h : StdUpdateBufferBuilder.new o inner slice dataSize = Except.ok d) :
    d.buffer = slice.buffer ∧ (d.build o).buffer = d.buffer := by
  constructor
  · unfold StdUpdateBufferBuilder.new at h
    split at h
    · split at h
      · split at h
        · split at h
          · cases h
            rfl
          · cases h
        · cases h
      · cases h
    · cases h
  · show (d.flush o).buffer = d.buffer
    exact update_flush_preserves_buffer o d

/-- Witness for C7 at the concrete simple-update construction. -/
theorem update_buffer_reference_carried_witness :
    ∃ d : UpdP,
      StdUpdateBufferBuilder.new primaryOps StdPrimaryCommandBufferBuilder.new
          wSlice 16 = Except.ok d ∧
      d.buffer = wSlice.buffer ∧ (d.build primaryOps).buffer = d.buffer := by
  refine ⟨_, rfl, update_buffer_reference_carried primaryOps
    StdPrimaryCommandBufferBuilder.new wSlice 16 _ rfl⟩

/-- Folding barrier requests into the primary builder accumulates them in the
staging batch, in order, and touches nothing else. -/
theorem primary_foldl_barriers (reqs : List BufferBarrierRequest) :
    ∀ p : StdPrimaryCommandBufferBuilder,
      reqs.foldl applyBarrierReq p
        = { p with staging_barrier := ⟨p.staging_barrier.requests ++ reqs⟩ } := by
  induction reqs with
  | nil => intro p; simp
  | cons r rs ih =>
      intro p
      rw [List.foldl_cons, ih]
      simp [applyBarrierReq, StdPrimaryCommandBufferBuilder.buffer_memory_barrier,
        PipelineBarrierBuilder.add_buffer_memory_barrier]

/-- C2: for every primary builder state, any non-empty run of
`buffer_memory_barrier` requests followed by `add_command` leaves the raw
stream with the accumulated pipeline barrier strictly before the appended
operations, and the barrier batch empty immediately after. -/
theorem primary_flush_before_use (p : StdPrimaryCommandBufferBuilder)
    (reqs : List BufferBarrierRequest) (cmds : List RawCommand)
    (h : reqs ≠ []) :
    ((reqs.foldl applyBarrierReq p).add_command cmds).staging_barrier.requests
      = [] ∧
    ((reqs.foldl applyBarrierReq p).add_command cmds).inner.stream
      = p.inner.stream ++
        RawCommand.pipelineBarrier (p.staging_barrier.requests ++ reqs) :: cmds := by
  rw [primary_foldl_barriers]
  have hne : p.staging_barrier.requests ++ reqs ≠ [] := by
    intro hcontra
    rw [List.append_eq_nil] at hcontra
    exact h hcontra.2
  have hemp :
      (PipelineBarrierBuilder.is_empty ⟨p.staging_barrier.requests ++ reqs⟩)
        = false := by
    simpa [PipelineBarrierBuilder.is_empty, List.isEmpty_iff] using hne
  constructor
  · simp [StdPrimaryCommandBufferBuilder.add_command, hemp,
      PipelineBarrierBuilder.new]
  · simp [StdPrimaryCommandBufferBuilder.add_command, hemp,
      UnsafeCommandBufferBuilder.pipeline_barrier]

/-- Witness for C2: one pending request on a fresh primary builder, then one
caller operation. -/
theorem primary_flush_before_use_witness :
    (([wReq].foldl applyBarrierReq
        StdPrimaryCommandBufferBuilder.new).add_command
          [RawCommand.op (RawOp.user 1)]).staging_barrier.requests = [] ∧
    (([wReq].foldl applyBarrierReq
        StdPrimaryCommandBufferBuilder.new).add_command
          [RawCommand.op (RawOp.user 1)]).inner.stream
      = StdPrimaryCommandBufferBuilder.new.inner.stream ++
        RawCommand.pipelineBarrier
          (StdPrimaryCommandBufferBuilder.new.staging_barrier.requests ++ [wReq])
          :: [RawCommand.op (RawOp.user 1)] :=
  primary_flush_before_use StdPrimaryCommandBufferBuilder.new [wReq]
    [RawCommand.op (RawOp.user 1)] (by simp)

/-- C4: constructing the update decorator with a payload over 65536 bytes, a
misaligned offset or size, or a destination buffer lacking transfer-dest
usage, fails with a precondition violation; the resulting error is the same
for every inner builder, so the failure is decided before the inner builder is
touched (no barrier request or operation is recorded on it). -/
theorem update_buffer_new_rejects_invalid (slice : BufferSlice)
    (dataSize : Nat)
    (h : slice.offset % 4 ≠ 0 ∨ slice.size % 4 ≠ 0 ∨ 65536 < dataSize ∨
      slice.buffer.usage_transfer_dest = false) :
    ∃ e : UpdateBufferError, ∀ (τ γ : Type) (o : BuilderOps τ γ) (inner : τ),
      StdUpdateBufferBuilder.new o inner slice dataSize = Except.error e := by
  by_cases h1 : slice.offset % 4 = 0
  · by_cases h2 : slice.size % 4 = 0
    · by_cases h3 : dataSize ≤ 65536
      · have h4 : slice.buffer.usage_transfer_dest = false := by
          rcases h with h | h | h | h
          · exact absurd h1 h
          · exact absurd h2 h
          · omega
          · exact h
        refine ⟨UpdateBufferError.missingTransferDestUsage,
          fun τ γ o inner => ?_⟩
        simp [StdUpdateBufferBuilder.new, h1, h2, h3, h4]
      · refine ⟨UpdateBufferError.dataTooLarge, fun τ γ o inner => ?_⟩
        simp [StdUpdateBufferBuilder.new, h1, h2, h3]
    · refine ⟨UpdateBufferError.sizeNotAligned, fun τ γ o inner => ?_⟩
      simp [StdUpdateBufferBuilder.new, h1, h2]
  · refine ⟨UpdateBufferError.offsetNotAligned, fun τ γ o inner => ?_⟩
    simp [StdUpdateBufferBuilder.new, h1]

/-- Witness for C4: the spec's rejected-update scenario — a 65537-byte payload
on an otherwise valid slice. -/
theorem update_buffer_new_rejects_invalid_witness :
    ∃ e : UpdateBufferError, ∀ (τ γ : Type) (o : BuilderOps τ γ) (inner : τ),
      StdUpdateBufferBuilder.new o inner wSlice 65537 = Except.error e :=
  update_buffer_new_rejects_invalid wSlice 65537
    (Or.inr (Or.inr (Or.inl (by decide))))

/-- C5: a successful construction of the update decorator over a primary
builder issues exactly one buffer-state transition request on the inner
builder — one new entry in the staging batch, targeting (transfer,
transfer-write, by-region) — appends nothing to the raw stream, and starts
with the deferred operation unflushed. -/
theorem update_buffer_new_requests_transition
    (p : StdPrimaryCommandBufferBuilder) (slice : BufferSlice)
    (dataSize : Nat) (d : UpdP)
    (h : StdUpdateBufferBuilder.new primaryOps p slice dataSize
      = Except.ok d) :
    (∃ src_stages src_access,
      d.inner.staging_barrier.requests
        = p.staging_barrier.requests ++
          [{ buffer := slice, src_stages := src_stages,
             src_access := src_access, dest_stages := transferStages,
             dest_access := transferWriteAccess, by_region := true,
             queue_transfer_from := none }]) ∧
    d.inner.inner.stream = p.inner.stream ∧
    d.flushed = false ∧
    d.buffer = slice.buffer ∧
    d.dataSize = dataSize := by
  unfold StdUpdateBufferBuilder.new at h
  split at h
  · split at h
    · split at h
      · split at h
        · cases h
          refine ⟨⟨_, _, rfl⟩, rfl, rfl, rfl, rfl⟩
        · cases h
      · cases h
    · cases h
  · cases h

/-- Witness for C5: the spec's simple-update scenario over a fresh primary
builder. -/
theorem update_buffer_new_requests_transition_witness :
    ∃ d : UpdP,
      StdUpdateBufferBuilder.new primaryOps StdPrimaryCommandBufferBuilder.new
          wSlice 16 = Except.ok d ∧
      ((∃ src_stages src_access,
        d.inner.staging_barrier.requests
          = StdPrimaryCommandBufferBuilder.new.staging_barrier.requests ++
            [{ buffer := wSlice, src_stages := src_stages,
               src_access := src_access, dest_stages := transferStages,
               dest_access := transferWriteAccess, by_region := true,
               queue_transfer_from := none }]) ∧
      d.inner.inner.stream = StdPrimaryCommandBufferBuilder.new.inner.stream ∧
      d.flushed = false ∧
      d.buffer = wSlice.buffer ∧
      d.dataSize = 16) := by
  refine ⟨_, rfl, update_buffer_new_requests_transition
    StdPrimaryCommandBufferBuilder.new wSlice 16 _ rfl⟩


/-- The empty list contains no update operation. -/
theorem noUpdate_nil : noUpdate [] := by
  intro b n hmem
  cases hmem

/-- A single batched barrier is not an update operation. -/
theorem noUpdate_barrier (reqs : List BufferBarrierRequest) :
    noUpdate [RawCommand.pipelineBarrier reqs] := by
  intro b n hmem
  simp at hmem

/-- Caller-supplied operations are never the decorator's update operation. -/
theorem noUpdate_userCmds (tags : List Nat) : noUpdate (userCmds tags) := by
  intro b n hmem
  simp [userCmds] at hmem

/-- Concatenation preserves the absence of update operations. -/
theorem noUpdate_append {l1 l2 : List RawCommand} (h1 : noUpdate l1)
    (h2 : noUpdate l2) : noUpdate (l1 ++ l2) := by
  intro b n hmem
  rcases List.mem_append.mp hmem with hm | hm
  · exact h1 b n hm
  · exact h2 b n hm

/-- What a staging-batch flush emits never contains an update operation. -/
theorem noUpdate_flushEmit (b : PipelineBarrierBuilder) :
    noUpdate (flushEmit b) := by
  unfold flushEmit
  split
  · exact noUpdate_nil
  · exact noUpdate_barrier b.requests

/-- Flushing an already-flushed decorator is the identity. -/
theorem update_flush_of_flushed {τ γ : Type} (o : BuilderOps τ γ)
    (s : StdUpdateBufferBuilder τ) (h : s.flushed = true) : s.flush o = s := by
  simp [StdUpdateBufferBuilder.flush, h]

/-- Flushing a not-yet-flushed decorator over a primary builder: the pending
batch (if any) is emitted, the deferred update operation follows it, the batch
becomes empty, the flag is set, and the identifying fields are unchanged. -/
theorem update_flush_of_unflushed (s : UpdP) (h : s.flushed = false) :
    (s.flush primaryOps).inner.inner.stream
      = s.inner.inner.stream ++ flushEmit s.inner.staging_barrier
          ++ [s.updateOp] ∧
    (s.flush primaryOps).inner.staging_barrier.requests = [] ∧
    (s.flush primaryOps).flushed = true ∧
    (s.flush primaryOps).buffer = s.buffer ∧
    (s.flush primaryOps).dataSize = s.dataSize := by
  by_cases hb : s.inner.staging_barrier.is_empty
  · have hreq : s.inner.staging_barrier.requests = [] := by
      simpa [PipelineBarrierBuilder.is_empty, List.isEmpty_iff] using hb
    refine ⟨?_, ?_, ?_, ?_, ?_⟩ <;>
      simp [StdUpdateBufferBuilder.flush, h, primaryOps,
        StdPrimaryCommandBufferBuilder.add_command, hb, flushEmit, hreq]
  · have hreq : s.inner.staging_barrier.requests ≠ [] := by
      simpa [PipelineBarrierBuilder.is_empty, List.isEmpty_iff] using hb
    refine ⟨?_, ?_, ?_, ?_, ?_⟩ <;>
      simp [StdUpdateBufferBuilder.flush, h, primaryOps,
        StdPrimaryCommandBufferBuilder.add_command, hb, flushEmit, hreq,
        UnsafeCommandBufferBuilder.pipeline_barrier,
        PipelineBarrierBuilder.new,
        PipelineBarrierBuilder.is_empty, List.isEmpty_iff]

/-- The `add_command` field of the primary dictionary is the primary
builder's method. -/
theorem primaryOps_add_command :
    primaryOps.add_command = StdPrimaryCommandBufferBuilder.add_command := rfl

/-- The `buffer_memory_barrier` field of the primary dictionary is the
primary builder's method. -/
theorem primaryOps_buffer_memory_barrier :
    primaryOps.buffer_memory_barrier
      = StdPrimaryCommandBufferBuilder.buffer_memory_barrier := rfl

/-- `add_command` on the primary builder appends the flushed batch followed by
the closure's commands, and empties the batch. -/
theorem primary_add_command_stream (p : StdPrimaryCommandBufferBuilder)
    (cmds : List RawCommand) :
    (p.add_command cmds).inner.stream
      = p.inner.stream ++ flushEmit p.staging_barrier ++ cmds ∧
    (p.add_command cmds).staging_barrier.requests = [] := by
  by_cases hb : p.staging_barrier.requests = [] <;>
    simp [StdPrimaryCommandBufferBuilder.add_command, flushEmit,
      PipelineBarrierBuilder.is_empty, List.isEmpty_iff, hb,
      UnsafeCommandBufferBuilder.pipeline_barrier, PipelineBarrierBuilder.new]

/-- `buffer_memory_barrier` on the primary builder leaves the stream and the
flag-relevant fields alone (restatement of C6 convenient for rewriting). -/
theorem primary_bmb_stream (p : StdPrimaryCommandBufferBuilder)
    (b : BufferSlice) (s1 : PipelineStages) (a1 : AccessFlagBits)
    (s2 : PipelineStages) (a2 : AccessFlagBits) (br : Bool) (q : Option Nat) :
    (p.buffer_memory_barrier b s1 a1 s2 a2 br q).inner.stream
      = p.inner.stream := rfl

/-- A contract call on an already-flushed decorator only appends
non-update-operation commands to the raw stream and keeps the flag set. -/
theorem stepCall_flushed (s : UpdP) (c : DecoratorCall)
    (h : s.flushed = true) :
    ∃ δ, (stepCall s c).inner.inner.stream = s.inner.inner.stream ++ δ ∧
      noUpdate δ ∧ (stepCall s c).flushed = true := by
  have hfl := update_flush_of_flushed primaryOps s h
  cases c with
  | addCommand tags =>
      refine ⟨flushEmit s.inner.staging_barrier ++ userCmds tags, ?_, ?_, ?_⟩
      · simp only [stepCall, StdUpdateBufferBuilder.add_command, hfl,
          primaryOps_add_command]
        have hs := primary_add_command_stream s.inner (userCmds tags)
        show (s.inner.add_command (userCmds tags)).inner.stream = _
        rw [hs.1, List.append_assoc]
      · exact noUpdate_append (noUpdate_flushEmit _) (noUpdate_userCmds tags)
      · simp only [stepCall, StdUpdateBufferBuilder.add_command, hfl]
        exact h
  | bufferBarrier b s1 a1 s2 a2 br q =>
      refine ⟨[], ?_, noUpdate_nil, ?_⟩
      · simp only [stepCall, StdUpdateBufferBuilder.buffer_memory_barrier, hfl,
          primaryOps_buffer_memory_barrier]
        show (s.inner.buffer_memory_barrier b s1 a1 s2 a2 br q).inner.stream = _
        rw [primary_bmb_stream]
        simp
      · simp only [stepCall, StdUpdateBufferBuilder.buffer_memory_barrier, hfl]
        exact h

/-- A run of contract calls on an already-flushed decorator only appends
non-update-operation commands and keeps the flag set. -/
theorem runCalls_flushed (cs : List DecoratorCall) :
    ∀ s : UpdP, s.flushed = true →
      ∃ δ, (runCalls s cs).inner.inner.stream = s.inner.inner.stream ++ δ ∧
        noUpdate δ ∧ (runCalls s cs).flushed = true := by
  induction cs with
  | nil =>
      intro s h
      exact ⟨[], by simp [runCalls], noUpdate_nil, by simpa [runCalls] using h⟩
  | cons c cs ih =>
      intro s h
      obtain ⟨d1, h1, hn1, hf1⟩ := stepCall_flushed s c h
      obtain ⟨d2, h2, hn2, hf2⟩ := ih (stepCall s c) hf1
      have hrun : runCalls s (c :: cs) = runCalls (stepCall s c) cs := by
        simp [runCalls]
      refine ⟨d1 ++ d2, ?_, noUpdate_append hn1 hn2, ?_⟩
      · rw [hrun, h2, h1, List.append_assoc]
      · rw [hrun]
        exact hf2

/-- `build()` on a decorator as the stream observation: the built stream is
the flush result's stream. -/
theorem builtStream_eq_flush (s : UpdP) :
    builtStream s = (s.flush primaryOps).inner.inner.stream := rfl

/-- A contract call on a not-yet-flushed decorator emits the pending batch,
then the deferred update operation, then only non-update commands. -/
theorem stepCall_unflushed (s : UpdP) (c : DecoratorCall)
    (h : s.flushed = false) :
    ∃ δ, (stepCall s c).inner.inner.stream
        = s.inner.inner.stream ++ flushEmit s.inner.staging_barrier ++
          s.updateOp :: δ ∧
      noUpdate δ ∧ (stepCall s c).flushed = true := by
  obtain ⟨hstream, hbatch, hflag, _, _⟩ := update_flush_of_unflushed s h
  have hemit : flushEmit (s.flush primaryOps).inner.staging_barrier = [] := by
    simp [flushEmit, hbatch]
  cases c with
  | addCommand tags =>
      refine ⟨userCmds tags, ?_, noUpdate_userCmds tags, ?_⟩
      · simp only [stepCall, StdUpdateBufferBuilder.add_command,
          primaryOps_add_command]
        show (StdPrimaryCommandBufferBuilder.add_command
          (s.flush primaryOps).inner (userCmds tags)).inner.stream = _
        rw [(primary_add_command_stream _ _).1, hemit, hstream]
        simp
      · simp only [stepCall, StdUpdateBufferBuilder.add_command]
        exact hflag
  | bufferBarrier b s1 a1 s2 a2 br q =>
      refine ⟨[], ?_, noUpdate_nil, ?_⟩
      · simp only [stepCall, StdUpdateBufferBuilder.buffer_memory_barrier,
          primaryOps_buffer_memory_barrier]
        show (StdPrimaryCommandBufferBuilder.buffer_memory_barrier
          (s.flush primaryOps).inner b s1 a1 s2 a2 br q).inner.stream = _
        rw [primary_bmb_stream, hstream]
      · simp only [stepCall, StdUpdateBufferBuilder.buffer_memory_barrier]
        exact hflag

/-- C3: for every update decorator whose deferred operation is still pending
and every sequence of contract calls followed by `build()`, the decorator's
update operation is appended to the inner raw stream exactly once — right
after the previously pending batch and before the effect of the first
forwarded call — and never again, however many later calls trigger the flush
path. -/
theorem update_decorator_flushes_exactly_once (s : UpdP)
    (cs : List DecoratorCall) (h : s.flushed = false) :
    ∃ suffix, builtStream (runCalls s cs)
        = s.inner.inner.stream ++ flushEmit s.inner.staging_barrier ++
          s.updateOp :: suffix ∧
      s.updateOp ∉ suffix := by
  cases cs with
  | nil =>
      obtain ⟨hstream, _, _, _, _⟩ := update_flush_of_unflushed s h
      refine ⟨[], ?_, by simp⟩
      have hrun : runCalls s [] = s := by simp [runCalls]
      rw [hrun, builtStream_eq_flush, hstream]
  | cons c cs =>
      obtain ⟨d1, h1, hn1, hf1⟩ := stepCall_unflushed s c h
      obtain ⟨d2, h2, hn2, hf2⟩ := runCalls_flushed cs (stepCall s c) hf1
      have hrun : runCalls s (c :: cs) = runCalls (stepCall s c) cs := by
        simp [runCalls]
      refine ⟨d1 ++ d2, ?_, ?_⟩
      · rw [hrun, builtStream_eq_flush,
          update_flush_of_flushed primaryOps _ hf2, h2, h1]
        simp
      · intro hmem
        rcases List.mem_append.mp hmem with hm | hm
        · exact hn1 s.buffer.id s.dataSize hm
        · exact hn2 s.buffer.id s.dataSize hm

/-- Witness for C3: the concrete unflushed decorator `wUpd` with one caller
operation. -/
theorem update_decorator_flushes_exactly_once_witness :
    ∃ suffix, builtStream (runCalls wUpd [DecoratorCall.addCommand [1]])
        = wUpd.inner.inner.stream ++ flushEmit wUpd.inner.staging_barrier ++
          wUpd.updateOp :: suffix ∧
      wUpd.updateOp ∉ suffix :=
  update_decorator_flushes_exactly_once wUpd [DecoratorCall.addCommand [1]] rfl

/-- Validation of the chain semantics at depth one: `add_command` on a
one-layer tower agrees with `add_command` on the decorator over the primary
builder. -/
theorem tower_one_layer_add_command (p : StdPrimaryCommandBufferBuilder)
    (n : Nat) (b : BufferDesc) (fl : Bool) (cmds : List RawCommand) :
    (TowerBuilder.add_command ⟨p, [⟨n, b, fl⟩]⟩ cmds).base
      = (StdUpdateBufferBuilder.add_command primaryOps ⟨p, n, b, fl⟩ cmds).inner ∧
    (TowerBuilder.add_command ⟨p, [⟨n, b, fl⟩]⟩ cmds).layers
      = [⟨n, b,
          (StdUpdateBufferBuilder.add_command primaryOps ⟨p, n, b, fl⟩ cmds).flushed⟩]
      := by
  cases fl <;>
    simp [TowerBuilder.add_command, TowerBuilder.flushAll,
      StdUpdateBufferBuilder.add_command, StdUpdateBufferBuilder.flush,
      primaryOps, UpdLayer.updateOp, StdUpdateBufferBuilder.updateOp]

/-- Validation of the chain semantics at depth one: `build()` on a one-layer
tower yields the same raw stream as `build()` on the decorator over the
primary builder. -/
theorem tower_one_layer_build (p : StdPrimaryCommandBufferBuilder) (n : Nat)
    (b : BufferDesc) (fl : Bool) :
    (TowerBuilder.build ⟨p, [⟨n, b, fl⟩]⟩).stream
      = ((StdUpdateBufferBuilder.build primaryOps ⟨p, n, b, fl⟩).inner).inner.stream
      := by
  cases fl <;>
    simp [TowerBuilder.build, TowerBuilder.flushAll,
      StdUpdateBufferBuilder.build, StdUpdateBufferBuilder.flush, primaryOps,
      StdPrimaryCommandBufferBuilder.build, UnsafeCommandBufferBuilder.build,
      UpdLayer.updateOp, StdUpdateBufferBuilder.updateOp]

/-- The spec's simple-update scenario evaluated: one update decorator over a
fresh primary builder, then `build()` — the built stream is exactly one
transition barrier (transfer-write destination) followed by exactly one
update operation. -/
theorem runProgram_simple_update :
    runProgram [BuilderCall.wrapUpdate wSlice 16]
      = Except.ok
        { stream :=
            [RawCommand.pipelineBarrier
              [{ buffer := wSlice,
                 src_stages := { PipelineStages.none with top_of_pipe := true },
                 src_access := AccessFlagBits.none,
                 dest_stages := transferStages,
                 dest_access := transferWriteAccess,
                 by_region := true,
                 queue_transfer_from := none }],
             RawCommand.op (RawOp.updateBuffer 7 16)],
          buffers := [wSlice.buffer] } := rfl
